import Mathlib

/-!
Verification of the KTM CAN bus decoder (`src/ktm_can/decoder.py`).

The decoder consumes `Message` values (a numeric CAN identifier plus a
byte payload) and yields `(id, key, value)` triples from a Python
generator.  We embed the generator as a function producing a `Trace`:
the list of signals yielded before the generator either finishes
normally (`error = none`) or raises (`error = some e`, recording which
Python exception class escapes: `IndexError` from out-of-range byte
indexing, `struct.error` from `struct.unpack` on a buffer of the wrong
size, or `AssertionError` from a failed `assert`).

Bytes are modelled as `Nat` (Python `bytes` elements are 0..255; where a
statement needs that bound it carries it as a hypothesis).  Python ints
are arbitrary precision with two's-complement bitwise operators, which
`Int.land`/`Int.lor` from Mathlib implement exactly.  Python floats
produced by `x / 10.0` are modelled as exact rationals.
-/

namespace KtmCan

/-- Source `lo_nibble`: `b & 0x0F`. -/
def lo_nibble (b : Nat) : Nat := b &&& 0x0F

/-- Source `hi_nibble`: `(b >> 4) & 0x0F`. -/
def hi_nibble (b : Nat) : Nat := (b >>> 4) &&& 0x0F

/-- Source `signed12`: `-(value & 0b100000000000) | (value & 0b011111111111)`
on Python arbitrary-precision ints, i.e. two's-complement `Int` bitwise ops. -/
def signed12 (value : Int) : Int :=
  Int.lor (-(Int.land value 0b100000000000)) (Int.land value 0b011111111111)

/-- Source `Message`: a message read from the bus (`id`, `data`). -/
structure Message where
  id : Nat
  data : List Nat
  deriving DecidableEq, Repr

/-- The runtime type of a decoded value: Python int, bool, float or str.
Floats are modelled as exact rationals. -/
inductive Value where
  | int (n : Int)
  | bool (b : Bool)
  | float (q : ℚ)
  | str (s : String)
  deriving DecidableEq, Repr

/-- One yielded `(id, key, value)` triple. -/
abbrev Signal := Nat × String × Value

/-- The Python exception class that escapes the generator, when one does. -/
inductive Err where
  | indexError
  | structError
  | assertionError
  deriving DecidableEq, Repr

/-- The observable behaviour of one run of the generator: the signals
yielded, in order, and the exception (if any) raised after them. -/
structure Trace where
  signals : List Signal
  error : Option Err
  deriving DecidableEq, Repr

/-- Generator finishes normally with no further signals. -/
def done : Trace := ⟨[], none⟩

/-- Yield one signal, then continue as `rest`. -/
def yieldSig (s : Signal) (rest : Trace) : Trace := ⟨s :: rest.signals, rest.error⟩

/-- Python `msg.data[i]`: the byte if in range, else the generator dies
with `IndexError`. -/
def tryByte (data : List Nat) (i : Nat) (k : Nat → Trace) : Trace :=
  match data.get? i with
  | some b => k b
  | none => ⟨[], some Err.indexError⟩

/-- Python `struct.unpack(">H", s)[0]`: big-endian unsigned 16-bit, requiring
the buffer to be exactly two bytes, else `struct.error`. -/
def tryUnpackBE16 (s : List Nat) (k : Nat → Trace) : Trace :=
  match s with
  | [a, b] => k (a * 256 + b)
  | _ => ⟨[], some Err.structError⟩

/-- Python `assert c`: continue if `c` holds, else `AssertionError`. -/
def tryAssert (c : Bool) (k : Unit → Trace) : Trace :=
  if c then k () else ⟨[], some Err.assertionError⟩

/-- Lowest hex digit as an uppercase character. -/
def hexDigit (n : Nat) : Char :=
  if n < 10 then Char.ofNat (48 + n) else Char.ofNat (55 + n)

/-- Python byte formatting with format spec 02X: two uppercase hexadecimal
digits, as applied to each payload byte (0..255). -/
def hex2 (b : Nat) : String := String.mk [hexDigit (b / 16), hexDigit (b % 16)]

/-- Python `~m & 0xFF` for `0 ≤ m ≤ 255`: the byte complement. -/
def maskNotByte (m : Nat) : Nat := 0xFF ^^^ (m &&& 0xFF)

/-- The `msg.id == 0x120` branch of `Decoder.decode`. -/
def decode120 (id : Nat) (emit_unmapped : Bool) (data : List Nat) : Trace :=
  tryUnpackBE16 (data.take 2) fun rpm =>
  yieldSig (id, "rpm", Value.int rpm) <|
  tryByte data 2 fun d2 =>
  yieldSig (id, "throttle", Value.int d2) <|
  tryByte data 3 fun d3 =>
  yieldSig (id, "kill_switch", Value.int (((d3 &&& 0b00010000) >>> 4 : Nat))) <|
  tryByte data 4 fun d4 =>
  yieldSig (id, "throttle_map", Value.int ((d4 &&& 0b00000001 : Nat))) <|
  if emit_unmapped then
    tryByte data 3 fun e3 =>
    tryByte data 4 fun e4 =>
    tryByte data 5 fun e5 =>
    tryByte data 6 fun e6 =>
    yieldSig (id, "unmapped", Value.str (String.intercalate " "
      ["__", "__", "__",
       hex2 (e3 &&& maskNotByte 0b00010000),
       hex2 (e4 &&& maskNotByte 0b00000001),
       hex2 e5, hex2 e6, "__"])) done
  else done

/-- The `msg.id == 0x129` branch of `Decoder.decode`. -/
def decode129 (id : Nat) (emit_unmapped : Bool) (data : List Nat) : Trace :=
  tryByte data 0 fun d0 =>
  yieldSig (id, "gear", Value.int (hi_nibble d0)) <|
  tryByte data 0 fun d0b =>
  yieldSig (id, "clutch_in", Value.bool (((d0b &&& 0b00001000) >>> 3) == 1)) <|
  if emit_unmapped then
    tryByte data 1 fun e1 =>
    tryByte data 2 fun e2 =>
    tryByte data 3 fun e3 =>
    tryByte data 4 fun e4 =>
    tryByte data 5 fun e5 =>
    tryByte data 6 fun e6 =>
    yieldSig (id, "unmapped", Value.str (String.intercalate " "
      ["__", hex2 e1, hex2 e2, hex2 e3, hex2 e4, hex2 e5, hex2 e6, "__"])) done
  else done

/-- The `msg.id == 0x12A` branch of `Decoder.decode`. -/
def decode12A (id : Nat) (emit_unmapped : Bool) (data : List Nat) : Trace :=
  tryByte data 1 fun d1 =>
  yieldSig (id, "requested_throttle_map", Value.int (((d1 &&& 0b01000000) >>> 6 : Nat))) <|
  if emit_unmapped then
    tryByte data 0 fun e0 =>
    tryByte data 1 fun e1 =>
    tryByte data 2 fun e2 =>
    tryByte data 3 fun e3 =>
    tryByte data 4 fun e4 =>
    tryByte data 5 fun e5 =>
    tryByte data 6 fun e6 =>
    tryByte data 7 fun e7 =>
    yieldSig (id, "unmapped", Value.str (String.intercalate " "
      [hex2 e0, hex2 (e1 &&& maskNotByte 0b01000000),
       hex2 e2, hex2 e3, hex2 e4, hex2 e5, hex2 e6, hex2 e7])) done
  else done

/-- The `msg.id == 0x12B` branch of `Decoder.decode`.  Note the yielded
keys are literally `"tilt?"` and `"lean?"` in the source. -/
def decode12B (id : Nat) (emit_unmapped : Bool) (data : List Nat) : Trace :=
  tryByte data 5 fun d5 =>
  tryByte data 6 fun d6 =>
  yieldSig (id, "tilt?", Value.int (signed12 (((d5 <<< 4) ||| hi_nibble d6 : Nat) : Int))) <|
  tryByte data 6 fun d6b =>
  tryByte data 7 fun d7 =>
  yieldSig (id, "lean?", Value.int (signed12 (((lo_nibble d6b <<< 8) ||| d7 : Nat) : Int))) <|
  if emit_unmapped then
    tryByte data 2 fun e2 =>
    tryByte data 3 fun e3 =>
    yieldSig (id, "unmapped", Value.str (String.intercalate " "
      ["__", "__", hex2 e2, hex2 e3, "__", "__", "__", "__"])) done
  else done

/-- The `msg.id == 0x540` branch of `Decoder.decode`. -/
def decode540 (id : Nat) (emit_unmapped : Bool) (data : List Nat) : Trace :=
  tryByte data 0 fun d0 =>
  tryAssert (d0 == 0x02) fun _ =>
  tryUnpackBE16 ((data.drop 1).take 2) fun rpm =>
  yieldSig (id, "rpm", Value.int rpm) <|
  tryByte data 4 fun d4 =>
  yieldSig (id, "kickstand_up", Value.bool ((d4 &&& 0b00000001) == 1)) <|
  tryByte data 4 fun d4b =>
  yieldSig (id, "kickstand_err", Value.bool (((d4b &&& 0b10000000) >>> 7) == 1)) <|
  tryByte data 5 fun d5 =>
  tryAssert (d5 == 0x00) fun _ =>
  tryUnpackBE16 (data.drop 6) fun ct =>
  yieldSig (id, "coolant_temp", Value.float ((ct : ℚ) / 10)) <|
  if emit_unmapped then
    tryByte data 3 fun e3 =>
    tryByte data 4 fun e4 =>
    yieldSig (id, "unmapped", Value.str (String.intercalate " "
      ["__", "__", "__", hex2 e3, hex2 (e4 &&& 0b01111110), "__", "__", "__"])) done
  else done

/-- Source `Decoder`: stateless holder of the `emit_unmapped` flag. -/
structure Decoder where
  emit_unmapped : Bool
  deriving DecidableEq, Repr

/-- Source `Decoder.decode`: dispatch on `msg.id` over the five known
identifiers; any other identifier yields nothing. -/
def Decoder.decode (self : Decoder) (msg : Message) : Trace :=
  if msg.id = 0x120 then decode120 msg.id self.emit_unmapped msg.data
  else if msg.id = 0x129 then decode129 msg.id self.emit_unmapped msg.data
  else if msg.id = 0x12A then decode12A msg.id self.emit_unmapped msg.data
  else if msg.id = 0x12B then decode12B msg.id self.emit_unmapped msg.data
  else if msg.id = 0x540 then decode540 msg.id self.emit_unmapped msg.data
  else done

/-- Convenience: decode with a given `emit_unmapped` flag. -/
def decode (emit_unmapped : Bool) (msg : Message) : Trace :=
  Decoder.decode ⟨emit_unmapped⟩ msg

/-- The closed name vocabulary as listed by the spec. -/
def specVocab : List String :=
  ["rpm", "throttle", "kill_switch", "gear", "clutch_in", "tilt", "lean",
   "coolant_temp", "kickstand_up", "kickstand_err", "requested_throttle_map",
   "throttle_map", "unmapped"]

/-- The names the decoder actually emits: as `specVocab` but with the
source's literal keys `"tilt?"` and `"lean?"` in place of `"tilt"`, `"lean"`. -/
def decoderVocab : List String :=
  ["rpm", "throttle", "kill_switch", "gear", "clutch_in", "tilt?", "lean?",
   "coolant_temp", "kickstand_up", "kickstand_err", "requested_throttle_map",
   "throttle_map", "unmapped"]

/-- The five identifiers the decoder knows. -/
def knownIds : List Nat := [0x120, 0x129, 0x12A, 0x12B, 0x540]

/-- The number of payload bytes a given identifier's branch reads (the
highest index accessed plus one), per decode flag. -/
def requiredLen (id : Nat) (emit_unmapped : Bool) : Nat :=
  if id = 0x120 then (if emit_unmapped then 7 else 5)
  else if id = 0x129 then (if emit_unmapped then 7 else 1)
  else if id = 0x12A then (if emit_unmapped then 8 else 2)
  else if id = 0x12B then 8
  else if id = 0x540 then 8
  else 0

/-- How one payload byte is treated by the unmapped diagnostic: hidden
behind the placeholder, shown with some bits masked to zero, or shown
in full. -/
inductive ByteUse where
  | full
  | masked (m : Nat)
  | free
  deriving DecidableEq, Repr

/-- Render the unmapped diagnostic string for a payload from a per-byte
use table: `"__"` for hidden bytes, two uppercase hex digits otherwise,
space-separated, in byte order. -/
def renderUnmapped (uses : List ByteUse) (data : List Nat) : String :=
  String.intercalate " " (List.zipWith
    (fun u b =>
      match u with
      | ByteUse.full => "__"
      | ByteUse.masked m => hex2 (b &&& m)
      | ByteUse.free => hex2 b)
    uses data)

/-- The per-identifier masking table the source's unmapped strings follow:
`full` for bytes fully consumed by named fields, for bytes the layout
comments document as counters, constants, or always-zero (0x120 byte 7,
0x129 byte 7, 0x12B bytes 0, 1, 4, 0x540 bytes 0 and 5), and for 0x129
byte 0, which `gear` and `clutch_in` consume only partially (bits 3-7) yet
the source hides entirely; `masked` for 0x120 bytes 3 and 4, 0x12A byte 1
and 0x540 byte 4, where named fields consumed single bits. -/
def useTable (id : Nat) : List ByteUse :=
  if id = 0x120 then
    [ByteUse.full, ByteUse.full, ByteUse.full, ByteUse.masked 0xEF,
     ByteUse.masked 0xFE, ByteUse.free, ByteUse.free, ByteUse.full]
  else if id = 0x129 then
    [ByteUse.full, ByteUse.free, ByteUse.free, ByteUse.free,
     ByteUse.free, ByteUse.free, ByteUse.free, ByteUse.full]
  else if id = 0x12A then
    [ByteUse.free, ByteUse.masked 0xBF, ByteUse.free, ByteUse.free,
     ByteUse.free, ByteUse.free, ByteUse.free, ByteUse.free]
  else if id = 0x12B then
    [ByteUse.full, ByteUse.full, ByteUse.free, ByteUse.free,
     ByteUse.full, ByteUse.full, ByteUse.full, ByteUse.full]
  else if id = 0x540 then
    [ByteUse.full, ByteUse.full, ByteUse.full, ByteUse.free,
     ByteUse.masked 0x7E, ByteUse.full, ByteUse.full, ByteUse.full]
  else []

/-- Modelled from the spec's unmapped-diagnostic sentence, read literally
for identifier 0x120: the placeholder appears exactly for bytes consumed
by a named field (bytes 0 and 1 by `rpm`, byte 2 by `throttle`), partially
consumed bytes 3 and 4 are hex with the consumed bit masked, and the
remaining bytes 5, 6 and 7 are plain hex. -/
def specUses120 : List ByteUse :=
  [ByteUse.full, ByteUse.full, ByteUse.full, ByteUse.masked 0xEF,
   ByteUse.masked 0xFE, ByteUse.free, ByteUse.free, ByteUse.free]

/-- Modelled from the spec's unmapped-diagnostic sentence, read literally
for identifier 0x129: no byte is fully consumed by a named field; byte 0 is
only partially consumed (`gear` takes bits 4-7 and `clutch_in` bit 3), so
the sentence's rule renders it as hex with those consumed bits masked to
zero, leaving bits 0-2 visible; bytes 1-7 are untouched and plain hex. -/
def specUses129 : List ByteUse :=
  [ByteUse.masked 0x07, ByteUse.free, ByteUse.free, ByteUse.free,
   ByteUse.free, ByteUse.free, ByteUse.free, ByteUse.free]

/-- The value of the first signal with the given key, if any. -/
def Trace.lookup (t : Trace) (key : String) : Option Value :=
  (t.signals.find? (fun s => s.2.1 == key)).map (fun s => s.2.2)

lemma int_lor_ofNat (m n : Nat) : Int.lor (m : Int) (n : Int) = ((m ||| n : Nat) : Int) := rfl

lemma int_lor_negSucc_ofNat (m n : Nat) :
    Int.lor (Int.negSucc m) (n : Int) = Int.negSucc (Nat.ldiff m n) := rfl

lemma land_2048 (n : Nat) : Int.land (n : Int) 2048 = ((n &&& 2048 : Nat) : Int) := rfl

lemma land_2047 (n : Nat) : Int.land (n : Int) 2047 = ((n &&& 2047 : Nat) : Int) := rfl

lemma ldiff_ones (b : Nat) (hb : b < 2048) : Nat.ldiff 2047 b = 2047 - b := by
  have hb' : b < 2 ^ 11 := by norm_num [hb]
  apply Nat.eq_of_testBit_eq
  intro i
  have h2 : (2047 : Nat) - b = 2 ^ 11 - (b + 1) := by omega
  rw [h2, Nat.testBit_two_pow_sub_succ hb', Nat.testBit_ldiff]
  have h3 : (2047 : Nat) = 2 ^ 11 - 1 := by norm_num
  rw [h3, Nat.testBit_two_pow_sub_one]

lemma signed12_eq (n : Nat) (h : n < 4096) :
    signed12 (n : Int) = if n < 2048 then (n : Int) else (n : Int) - 4096 := by
  have hmod : n &&& 2047 = n % 2048 := by
    have h11 := Nat.and_pow_two_sub_one_eq_mod n 11
    norm_num at h11
    exact h11
  by_cases hn : n < 2048
  · have hbit : n.testBit 11 = false := Nat.testBit_lt_two_pow (by norm_num [hn])
    have hand : n &&& 2048 = 0 := by
      have h12 := Nat.and_two_pow n 11
      simp [hbit] at h12
      exact h12
    rw [if_pos hn]
    unfold signed12
    rw [land_2048, land_2047, hand, hmod, Nat.mod_eq_of_lt hn]
    rw [show -(((0 : Nat) : Int)) = 0 by norm_num]
    rw [show (0 : Int) = ((0 : Nat) : Int) from rfl, int_lor_ofNat]
    simp
  · have h2048 : 2048 ≤ n := le_of_not_lt hn
    have hand : n &&& 2048 = 2048 := by
      have hbit : n.testBit 11 = true := by
        rw [Nat.testBit_to_div_mod]
        simp only [decide_eq_true_eq]
        norm_num
        omega
      have h12 := Nat.and_two_pow n 11
      simp [hbit] at h12
      exact h12
    rw [if_neg hn]
    unfold signed12
    rw [land_2048, land_2047, hand, hmod]
    rw [show -(((2048 : Nat) : Int)) = Int.negSucc 2047 from rfl]
    rw [int_lor_negSucc_ofNat, ldiff_ones _ (Nat.mod_lt _ (by norm_num)), Int.negSucc_eq]
    omega

lemma testBit11_eq (n : Nat) (h : n < 4096) : n.testBit 11 = decide (2048 ≤ n) := by
  by_cases hn : n < 2048
  · rw [Nat.testBit_lt_two_pow (x := n) (i := 11) (by norm_num [hn])]
    symm
    simp only [decide_eq_false_iff_not]
    omega
  · have hb : n.testBit 11 = true := by
      rw [Nat.testBit_to_div_mod]
      simp only [decide_eq_true_eq]
      norm_num
      omega
    rw [hb]
    symm
    simp only [decide_eq_true_eq]
    omega

lemma and_pow_shift (b i : Nat) : (b &&& 2 ^ i) >>> i = (b.testBit i).toNat := by
  rw [Nat.and_two_pow, Nat.shiftRight_eq_div_pow]
  rcases b.testBit i with _ | _ <;> simp

/-- C4: for every 12-bit unsigned v, signed12 v is v when bit 11 is clear and
v - 4096 when it is set; the boundary values 0x000, 0x001, 0x800, 0xFFF map to
0, 1, -2048, -1; the result lies in [-2048, 2047] and is congruent to v
modulo 4096. -/
theorem C4_signed12 (v : Int) (h0 : 0 ≤ v) (h1 : v ≤ 4095) :
    (signed12 v = if v.toNat.testBit 11 then v - 4096 else v)
    ∧ signed12 0x000 = 0 ∧ signed12 0x001 = 1
    ∧ signed12 0x800 = -2048 ∧ signed12 0xFFF = -1
    ∧ (-2048 ≤ signed12 v ∧ signed12 v ≤ 2047)
    ∧ signed12 v % 4096 = v % 4096 := by
  obtain ⟨n, rfl⟩ : ∃ n : Nat, v = (n : Int) := ⟨v.toNat, (Int.toNat_of_nonneg h0).symm⟩
  have hn : n < 4096 := by omega
  have hkey := signed12_eq n hn
  have hbit := testBit11_eq n hn
  have htoNat : ((n : Int)).toNat = n := by simp
  refine ⟨?_, by decide, by decide, ?_, ?_, ?_, ?_⟩
  · rw [htoNat, hbit, hkey]
    rcases Nat.lt_or_ge n 2048 with hc | hc
    · simp [hc, Nat.not_le.mpr hc]
    · simp [hc, Nat.not_lt.mpr hc]
  · have h8 := signed12_eq 2048 (by norm_num)
    norm_num at h8
    exact h8
  · have hf := signed12_eq 4095 (by norm_num)
    norm_num at hf
    exact hf
  · rw [hkey]
    rcases Nat.lt_or_ge n 2048 with hc | hc
    · rw [if_pos hc]
      constructor <;> omega
    · rw [if_neg (Nat.not_lt.mpr hc)]
      constructor <;> omega
  · rw [hkey]
    rcases Nat.lt_or_ge n 2048 with hc | hc
    · rw [if_pos hc]
    · rw [if_neg (Nat.not_lt.mpr hc)]
      omega

/-- Witness for C4: the concrete input 2748 (= 0xABC). -/
theorem C4_signed12_witness :
    (0 ≤ (2748 : Int)) ∧ ((2748 : Int) ≤ 4095) ∧ signed12 2748 = -1348 := by
  have h := C4_signed12 2748 (by norm_num) (by norm_num)
  refine ⟨by norm_num, by norm_num, ?_⟩
  have h1 := h.1
  norm_num at h1
  rw [h1]
  decide

lemma bit_toNat_01 (t : Bool) : t.toNat = 0 ∨ t.toNat = 1 := by cases t <;> simp

lemma beq_toNat_one (t : Bool) : (t.toNat == 1) = t := by cases t <;> rfl

lemma bit4_extract (b : Nat) : (b &&& 16) >>> 4 = (b.testBit 4).toNat := by
  have h := and_pow_shift b 4
  norm_num at h
  exact h

lemma bit0_extract (b : Nat) : b &&& 1 = (b.testBit 0).toNat := by
  have h := and_pow_shift b 0
  simpa using h

lemma bit6_extract (b : Nat) : (b &&& 64) >>> 6 = (b.testBit 6).toNat := by
  have h := and_pow_shift b 6
  norm_num at h
  exact h

lemma bit3_extract (b : Nat) : (b &&& 8) >>> 3 = (b.testBit 3).toNat := by
  have h := and_pow_shift b 3
  norm_num at h
  exact h

lemma bit7_extract (b : Nat) : (b &&& 128) >>> 7 = (b.testBit 7).toNat := by
  have h := and_pow_shift b 7
  norm_num at h
  exact h

/-- C5: decoding identifier 0x120 yields rpm as the big-endian 16-bit value of
bytes 0 and 1, throttle as byte 2, kill_switch as bit 4 of byte 3, and
throttle_map as bit 0 of byte 4; in particular bytes 0x1A, 0x2B give rpm 6699. -/
theorem C5_decode120_fields (b0 b1 b2 b3 b4 b5 b6 b7 : Nat) (e : Bool) :
    ((0x120, "rpm", Value.int (b0 * 256 + b1)) ∈
        (decode e ⟨0x120, [b0, b1, b2, b3, b4, b5, b6, b7]⟩).signals
    ∧ (0x120, "throttle", Value.int (b2 : Int)) ∈
        (decode e ⟨0x120, [b0, b1, b2, b3, b4, b5, b6, b7]⟩).signals
    ∧ (0x120, "kill_switch", Value.int (((b3.testBit 4).toNat : Nat) : Int)) ∈
        (decode e ⟨0x120, [b0, b1, b2, b3, b4, b5, b6, b7]⟩).signals
    ∧ (0x120, "throttle_map", Value.int (((b4.testBit 0).toNat : Nat) : Int)) ∈
        (decode e ⟨0x120, [b0, b1, b2, b3, b4, b5, b6, b7]⟩).signals)
    ∧ (0x120, "rpm", Value.int 6699) ∈
        (decode false ⟨0x120, [0x1A, 0x2B, 0, 0, 0, 0, 0, 0]⟩).signals := by
  refine ⟨⟨?_, ?_, ?_, ?_⟩, by decide⟩ <;>
    cases e <;>
      simp [decode, Decoder.decode, decode120, tryUnpackBE16, tryByte, yieldSig, done,
        bit4_extract, bit0_extract] <;>
    rcases Nat.mod_two_eq_zero_or_one b4 with h | h <;> simp [h] <;> omega

lemma lookup_ks_120 (b0 b1 b2 b3 b4 b5 b6 b7 : Nat) (e : Bool) :
    Trace.lookup (decode e ⟨0x120, [b0, b1, b2, b3, b4, b5, b6, b7]⟩) "kill_switch"
      = some (Value.int (((b3 &&& 16) >>> 4 : Nat) : Int)) := by
  cases e <;> rfl

lemma lookup_tm_120 (b0 b1 b2 b3 b4 b5 b6 b7 : Nat) (e : Bool) :
    Trace.lookup (decode e ⟨0x120, [b0, b1, b2, b3, b4, b5, b6, b7]⟩) "throttle_map"
      = some (Value.int ((b4 &&& 1 : Nat) : Int)) := by
  cases e <;> rfl

/-- C7: for 0x120 frames, kill_switch depends only on bit 4 of byte 3 and
throttle_map only on bit 0 of byte 4, and both decode to 0 or 1. -/
theorem C7_mask_independence
    (p0 p1 p2 p3 p4 p5 p6 p7 q0 q1 q2 q3 q4 q5 q6 q7 : Nat) (e1 e2 : Bool) :
    (p3.testBit 4 = q3.testBit 4 →
      Trace.lookup (decode e1 ⟨0x120, [p0, p1, p2, p3, p4, p5, p6, p7]⟩) "kill_switch"
        = Trace.lookup (decode e2 ⟨0x120, [q0, q1, q2, q3, q4, q5, q6, q7]⟩) "kill_switch")
    ∧ (p4.testBit 0 = q4.testBit 0 →
      Trace.lookup (decode e1 ⟨0x120, [p0, p1, p2, p3, p4, p5, p6, p7]⟩) "throttle_map"
        = Trace.lookup (decode e2 ⟨0x120, [q0, q1, q2, q3, q4, q5, q6, q7]⟩) "throttle_map")
    ∧ (Trace.lookup (decode e1 ⟨0x120, [p0, p1, p2, p3, p4, p5, p6, p7]⟩) "kill_switch"
        = some (Value.int 0)
      ∨ Trace.lookup (decode e1 ⟨0x120, [p0, p1, p2, p3, p4, p5, p6, p7]⟩) "kill_switch"
        = some (Value.int 1))
    ∧ (Trace.lookup (decode e1 ⟨0x120, [p0, p1, p2, p3, p4, p5, p6, p7]⟩) "throttle_map"
        = some (Value.int 0)
      ∨ Trace.lookup (decode e1 ⟨0x120, [p0, p1, p2, p3, p4, p5, p6, p7]⟩) "throttle_map"
        = some (Value.int 1)) := by
  refine ⟨?_, ?_, ?_, ?_⟩
  · intro h
    rw [lookup_ks_120, lookup_ks_120, bit4_extract, bit4_extract, h]
  · intro h
    rw [lookup_tm_120, lookup_tm_120, bit0_extract, bit0_extract, h]
  · rw [lookup_ks_120, bit4_extract]
    rcases bit_toNat_01 (p3.testBit 4) with h | h <;> rw [h] <;> simp
  · rw [lookup_tm_120, bit0_extract]
    rcases bit_toNat_01 (p4.testBit 0) with h | h <;> rw [h] <;> simp

/-- Witness for C7: a concrete pair of payloads agreeing on the designated
bits while differing everywhere else. -/
theorem C7_mask_independence_witness :
    Nat.testBit 0xFF 4 = Nat.testBit 0x10 4
    ∧ Nat.testBit 0xFE 0 = Nat.testBit 0x54 0
    ∧ Trace.lookup (decode false ⟨0x120, [1, 2, 3, 0xFF, 0xFE, 4, 5, 6]⟩) "kill_switch"
        = Trace.lookup (decode true ⟨0x120, [9, 8, 7, 0x10, 0x54, 3, 2, 1]⟩) "kill_switch" := by
  refine ⟨by decide, by decide, ?_⟩
  exact (C7_mask_independence 1 2 3 0xFF 0xFE 4 5 6 9 8 7 0x10 0x54 3 2 1 false true).1
    (by decide)

/-- C9: on a valid 0x540 frame (byte 0 = 0x02, byte 5 = 0x00) coolant_temp is
the big-endian 16-bit value of bytes 6 and 7 divided by 10; bytes
[0x01, 0x2C] there give 30. -/
theorem C9_coolant_temp (b1 b2 b3 b4 b6 b7 : Nat) (e : Bool) :
    (0x540, "coolant_temp", Value.float (((b6 * 256 + b7 : Nat) : ℚ) / 10)) ∈
        (decode e ⟨0x540, [2, b1, b2, b3, b4, 0, b6, b7]⟩).signals
    ∧ Trace.lookup (decode e ⟨0x540, [2, b1, b2, b3, b4, 0, 0x01, 0x2C]⟩) "coolant_temp"
        = some (Value.float 30) := by
  constructor
  · cases e <;>
      simp [decode, Decoder.decode, decode540, tryUnpackBE16, tryByte, tryAssert,
        yieldSig, done]
  · have h : Trace.lookup (decode e ⟨0x540, [2, b1, b2, b3, b4, 0, 0x01, 0x2C]⟩)
        "coolant_temp" = some (Value.float (((0x01 * 256 + 0x2C : Nat) : ℚ) / 10)) := by
      cases e <;> rfl
    rw [h]
    norm_num

/-- C6: a 0x540 frame with byte 0 ≠ 0x02, or byte 5 ≠ 0x00, makes the decoder
raise the assertion error, which is a different error from the index and
struct errors raised for truncated payloads. -/
theorem C6_structural_invariant (b0 b1 b2 b3 b4 b5 b6 b7 : Nat) (e : Bool) :
    (b0 ≠ 2 →
      decode e ⟨0x540, [b0, b1, b2, b3, b4, b5, b6, b7]⟩ = ⟨[], some Err.assertionError⟩)
    ∧ (b5 ≠ 0 →
      (decode e ⟨0x540, [2, b1, b2, b3, b4, b5, b6, b7]⟩).error = some Err.assertionError)
    ∧ Err.assertionError ≠ Err.indexError ∧ Err.assertionError ≠ Err.structError := by
  refine ⟨?_, ?_, by decide, by decide⟩
  · intro h
    have hb : (b0 == 2) = false := by simp [h]
    cases e <;>
      simp [decode, Decoder.decode, decode540, tryByte, tryAssert, hb]
  · intro h
    have hb : (b5 == 0) = false := by simp [h]
    cases e <;>
      simp [decode, Decoder.decode, decode540, tryByte, tryUnpackBE16, tryAssert,
        yieldSig, done, hb]

/-- Witness for C6: concrete violating frames. -/
theorem C6_structural_invariant_witness :
    decode false ⟨0x540, [7, 0, 0, 0, 0, 0, 0, 0]⟩ = ⟨[], some Err.assertionError⟩
    ∧ (decode false ⟨0x540, [2, 0, 0, 0, 0, 9, 0, 0]⟩).error = some Err.assertionError := by
  constructor
  · exact (C6_structural_invariant 7 0 0 0 0 0 0 0 false).1 (by decide)
  · exact (C6_structural_invariant 0 0 0 0 0 9 0 0 false).2.1 (by decide)

/-- C8: a frame whose identifier is none of the five known ones decodes to the
empty signal sequence with no error, whatever the flag and payload. -/
theorem C8_unknown_id (id : Nat) (e : Bool) (data : List Nat) (h : id ∉ knownIds) :
    decode e ⟨id, data⟩ = ⟨[], none⟩ := by
  simp [knownIds] at h
  obtain ⟨h1, h2, h3, h4, h5⟩ := h
  simp [decode, Decoder.decode, h1, h2, h3, h4, h5, done]

/-- Witness for C8: identifier 0x200. -/
theorem C8_unknown_id_witness :
    (0x200 : Nat) ∉ knownIds ∧ decode true ⟨0x200, [1, 2, 3, 4, 5, 6, 7, 8]⟩ = ⟨[], none⟩ :=
  ⟨by decide, C8_unknown_id 0x200 true [1, 2, 3, 4, 5, 6, 7, 8] (by decide)⟩

/-- C10: a 0x540 frame passing the byte-0 check but failing the byte-5 check
yields the rpm, kickstand_up and kickstand_err signals and only then raises
the assertion error: the error is not atomic with the output sequence. -/
theorem C10_lazy_error (b1 b2 b3 b4 b5 b6 b7 : Nat) (e : Bool) (h : b5 ≠ 0) :
    decode e ⟨0x540, [2, b1, b2, b3, b4, b5, b6, b7]⟩ =
      ⟨[(0x540, "rpm", Value.int (b1 * 256 + b2)),
        (0x540, "kickstand_up", Value.bool (b4.testBit 0)),
        (0x540, "kickstand_err", Value.bool (b4.testBit 7))],
       some Err.assertionError⟩ := by
  have hb : (b5 == 0) = false := by simp [h]
  have h0 : ((b4 &&& 1) == 1) = b4.testBit 0 := by
    rw [bit0_extract, beq_toNat_one]
  have h7 : (((b4 &&& 128) >>> 7) == 1) = b4.testBit 7 := by
    rw [bit7_extract, beq_toNat_one]
  cases e <;>
    simp [decode, Decoder.decode, decode540, tryByte, tryUnpackBE16, tryAssert,
      yieldSig, done, hb, h0, h7] <;>
    rcases Nat.mod_two_eq_zero_or_one b4 with hm | hm <;> simp [hm]

/-- Witness for C10: a concrete frame with byte 5 = 9. -/
theorem C10_lazy_error_witness :
    decode false ⟨0x540, [2, 0x1A, 0x2B, 0, 1, 9, 0, 0]⟩ =
      ⟨[(0x540, "rpm", Value.int 6699),
        (0x540, "kickstand_up", Value.bool true),
        (0x540, "kickstand_err", Value.bool false)],
       some Err.assertionError⟩ := by
  have h := C10_lazy_error 0x1A 0x2B 0 1 9 0 0 false (by decide)
  simpa using h

lemma yieldSig_names {P : Signal → Prop} {s : Signal} {rest : Trace} (h1 : P s)
    (h2 : ∀ t ∈ rest.signals, P t) : ∀ t ∈ (yieldSig s rest).signals, P t := by
  unfold yieldSig
  intro t ht
  cases ht with
  | head => exact h1
  | tail _ ht => exact h2 _ ht

lemma tryByte_names {P : Signal → Prop} {data : List Nat} {i : Nat} {k : Nat → Trace}
    (h : ∀ b, ∀ t ∈ (k b).signals, P t) : ∀ t ∈ (tryByte data i k).signals, P t := by
  unfold tryByte
  cases data.get? i with
  | some b => exact h b
  | none => intro t ht; simp at ht

lemma tryUnpack_names {P : Signal → Prop} {s : List Nat} {k : Nat → Trace}
    (h : ∀ v, ∀ t ∈ (k v).signals, P t) : ∀ t ∈ (tryUnpackBE16 s k).signals, P t := by
  unfold tryUnpackBE16
  rcases s with _ | ⟨a, _ | ⟨b, _ | ⟨c, r⟩⟩⟩ <;>
    first
      | exact h _
      | (intro t ht; simp at ht)

lemma tryAssert_names {P : Signal → Prop} {c : Bool} {k : Unit → Trace}
    (h : ∀ t ∈ (k ()).signals, P t) : ∀ t ∈ (tryAssert c k).signals, P t := by
  unfold tryAssert
  split
  · exact h
  · intro t ht; simp at ht

lemma done_names {P : Signal → Prop} : ∀ t ∈ (done).signals, P t := by
  intro t ht
  simp [done] at ht

lemma decode120_names (id : Nat) (e : Bool) (data : List Nat) :
    ∀ s ∈ (decode120 id e data).signals, s.2.1 ∈ decoderVocab := by
  unfold decode120
  apply tryUnpack_names; intro rpm
  refine yieldSig_names (List.Mem.head _) ?_
  apply tryByte_names; intro d2
  refine yieldSig_names (List.Mem.tail _ (List.Mem.head _)) ?_
  apply tryByte_names; intro d3
  refine yieldSig_names (List.Mem.tail _ (List.Mem.tail _ (List.Mem.head _))) ?_
  apply tryByte_names; intro d4
  refine yieldSig_names (List.Mem.tail _ (List.Mem.tail _ (List.Mem.tail _ (List.Mem.tail _ (List.Mem.tail _ (List.Mem.tail _ (List.Mem.tail _ (List.Mem.tail _ (List.Mem.tail _ (List.Mem.tail _ (List.Mem.tail _ (List.Mem.head _)))))))))))) ?_
  cases e
  · exact done_names
  · apply tryByte_names; intro e3
    apply tryByte_names; intro e4
    apply tryByte_names; intro e5
    apply tryByte_names; intro e6
    refine yieldSig_names (List.Mem.tail _ (List.Mem.tail _ (List.Mem.tail _ (List.Mem.tail _ (List.Mem.tail _ (List.Mem.tail _ (List.Mem.tail _ (List.Mem.tail _ (List.Mem.tail _ (List.Mem.tail _ (List.Mem.tail _ (List.Mem.tail _ (List.Mem.head _))))))))))))) ?_
    exact done_names

lemma decode129_names (id : Nat) (e : Bool) (data : List Nat) :
    ∀ s ∈ (decode129 id e data).signals, s.2.1 ∈ decoderVocab := by
  unfold decode129
  apply tryByte_names; intro d0
  refine yieldSig_names (List.Mem.tail _ (List.Mem.tail _ (List.Mem.tail _ (List.Mem.head _)))) ?_
  apply tryByte_names; intro d0b
  refine yieldSig_names (List.Mem.tail _ (List.Mem.tail _ (List.Mem.tail _ (List.Mem.tail _ (List.Mem.head _))))) ?_
  cases e
  · exact done_names
  · apply tryByte_names; intro e1
    apply tryByte_names; intro e2
    apply tryByte_names; intro e3
    apply tryByte_names; intro e4
    apply tryByte_names; intro e5
    apply tryByte_names; intro e6
    refine yieldSig_names (List.Mem.tail _ (List.Mem.tail _ (List.Mem.tail _ (List.Mem.tail _ (List.Mem.tail _ (List.Mem.tail _ (List.Mem.tail _ (List.Mem.tail _ (List.Mem.tail _ (List.Mem.tail _ (List.Mem.tail _ (List.Mem.tail _ (List.Mem.head _))))))))))))) ?_
    exact done_names

lemma decode12A_names (id : Nat) (e : Bool) (data : List Nat) :
    ∀ s ∈ (decode12A id e data).signals, s.2.1 ∈ decoderVocab := by
  unfold decode12A
  apply tryByte_names; intro d1
  refine yieldSig_names (List.Mem.tail _ (List.Mem.tail _ (List.Mem.tail _ (List.Mem.tail _ (List.Mem.tail _ (List.Mem.tail _ (List.Mem.tail _ (List.Mem.tail _ (List.Mem.tail _ (List.Mem.tail _ (List.Mem.head _))))))))))) ?_
  cases e
  · exact done_names
  · apply tryByte_names; intro e0
    apply tryByte_names; intro e1
    apply tryByte_names; intro e2
    apply tryByte_names; intro e3
    apply tryByte_names; intro e4
    apply tryByte_names; intro e5
    apply tryByte_names; intro e6
    apply tryByte_names; intro e7
    refine yieldSig_names (List.Mem.tail _ (List.Mem.tail _ (List.Mem.tail _ (List.Mem.tail _ (List.Mem.tail _ (List.Mem.tail _ (List.Mem.tail _ (List.Mem.tail _ (List.Mem.tail _ (List.Mem.tail _ (List.Mem.tail _ (List.Mem.tail _ (List.Mem.head _))))))))))))) ?_
    exact done_names

lemma decode12B_names (id : Nat) (e : Bool) (data : List Nat) :
    ∀ s ∈ (decode12B id e data).signals, s.2.1 ∈ decoderVocab := by
  unfold decode12B
  apply tryByte_names; intro d5
  apply tryByte_names; intro d6
  refine yieldSig_names (List.Mem.tail _ (List.Mem.tail _ (List.Mem.tail _ (List.Mem.tail _ (List.Mem.tail _ (List.Mem.head _)))))) ?_
  apply tryByte_names; intro d6b
  apply tryByte_names; intro d7
  refine yieldSig_names (List.Mem.tail _ (List.Mem.tail _ (List.Mem.tail _ (List.Mem.tail _ (List.Mem.tail _ (List.Mem.tail _ (List.Mem.head _))))))) ?_
  cases e
  · exact done_names
  · apply tryByte_names; intro e2
    apply tryByte_names; intro e3
    refine yieldSig_names (List.Mem.tail _ (List.Mem.tail _ (List.Mem.tail _ (List.Mem.tail _ (List.Mem.tail _ (List.Mem.tail _ (List.Mem.tail _ (List.Mem.tail _ (List.Mem.tail _ (List.Mem.tail _ (List.Mem.tail _ (List.Mem.tail _ (List.Mem.head _))))))))))))) ?_
    exact done_names

lemma decode540_names (id : Nat) (e : Bool) (data : List Nat) :
    ∀ s ∈ (decode540 id e data).signals, s.2.1 ∈ decoderVocab := by
  unfold decode540
  apply tryByte_names; intro d0
  apply tryAssert_names
  apply tryUnpack_names; intro rpm
  refine yieldSig_names (List.Mem.head _) ?_
  apply tryByte_names; intro d4
  refine yieldSig_names (List.Mem.tail _ (List.Mem.tail _ (List.Mem.tail _ (List.Mem.tail _ (List.Mem.tail _ (List.Mem.tail _ (List.Mem.tail _ (List.Mem.tail _ (List.Mem.head _))))))))) ?_
  apply tryByte_names; intro d4b
  refine yieldSig_names (List.Mem.tail _ (List.Mem.tail _ (List.Mem.tail _ (List.Mem.tail _ (List.Mem.tail _ (List.Mem.tail _ (List.Mem.tail _ (List.Mem.tail _ (List.Mem.tail _ (List.Mem.head _)))))))))) ?_
  apply tryByte_names; intro d5
  apply tryAssert_names
  apply tryUnpack_names; intro ct
  refine yieldSig_names (List.Mem.tail _ (List.Mem.tail _ (List.Mem.tail _ (List.Mem.tail _ (List.Mem.tail _ (List.Mem.tail _ (List.Mem.tail _ (List.Mem.head _)))))))) ?_
  cases e
  · exact done_names
  · apply tryByte_names; intro e3
    apply tryByte_names; intro e4
    refine yieldSig_names (List.Mem.tail _ (List.Mem.tail _ (List.Mem.tail _ (List.Mem.tail _ (List.Mem.tail _ (List.Mem.tail _ (List.Mem.tail _ (List.Mem.tail _ (List.Mem.tail _ (List.Mem.tail _ (List.Mem.tail _ (List.Mem.tail _ (List.Mem.head _))))))))))))) ?_
    exact done_names

lemma decode_names (e : Bool) (msg : Message) :
    ∀ s ∈ (decode e msg).signals, s.2.1 ∈ decoderVocab := by
  unfold decode Decoder.decode
  split_ifs <;>
    first
      | exact decode120_names _ _ _
      | exact decode129_names _ _ _
      | exact decode12A_names _ _ _
      | exact decode12B_names _ _ _
      | exact decode540_names _ _ _
      | simp [done]

/-- C1 is refuted: the 0x12B branch emits the key "tilt?", which is outside
the spec's vocabulary, and no signal named "tilt" is emitted. -/
theorem C1_vocab_counterexample :
    "tilt?" ∈ ((decode false ⟨0x12B, [0, 0, 0, 0, 0, 0, 0, 0]⟩).signals.map
        (fun s => s.2.1))
    ∧ "tilt?" ∉ specVocab
    ∧ "tilt" ∉ ((decode false ⟨0x12B, [0, 0, 0, 0, 0, 0, 0, 0]⟩).signals.map
        (fun s => s.2.1)) := by
  decide

/-- C1 (amended): every emitted signal name is in the decoder's closed
vocabulary, which is the spec's with "tilt?" and "lean?" in place of "tilt"
and "lean"; the 0x12B frame emits signals named "tilt?" and "lean?". -/
theorem C1_vocab (e : Bool) (msg : Message) :
    (∀ s ∈ (decode e msg).signals, s.2.1 ∈ decoderVocab)
    ∧ "tilt?" ∈ ((decode false ⟨0x12B, [0, 0, 0, 0, 0, 0, 0, 0]⟩).signals.map
        (fun s => s.2.1))
    ∧ "lean?" ∈ ((decode false ⟨0x12B, [0, 0, 0, 0, 0, 0, 0, 0]⟩).signals.map
        (fun s => s.2.1)) :=
  ⟨decode_names e msg, by decide, by decide⟩

/-- Witness for C1: the "rpm" signal of a concrete 0x120 frame is in the
vocabulary. -/
theorem C1_vocab_witness : "rpm" ∈ decoderVocab :=
  (C1_vocab false ⟨0x120, [0, 0, 0, 0, 0, 0, 0, 0]⟩).1 (0x120, "rpm", Value.int 0)
    (by decide)

lemma short_120 (e : Bool) (data : List Nat) (h : data.length < requiredLen 0x120 e) :
    (decode120 0x120 e data).error.isSome := by
  rcases data with _ | ⟨b0, _ | ⟨b1, _ | ⟨b2, _ | ⟨b3, _ | ⟨b4, _ | ⟨b5, _ | ⟨b6, rest⟩⟩⟩⟩⟩⟩⟩ <;>
    cases e <;>
      first
        | rfl
        | (exfalso; simp [requiredLen] at h; try omega)

lemma short_129 (e : Bool) (data : List Nat) (h : data.length < requiredLen 0x129 e) :
    (decode129 0x129 e data).error.isSome := by
  rcases data with _ | ⟨b0, _ | ⟨b1, _ | ⟨b2, _ | ⟨b3, _ | ⟨b4, _ | ⟨b5, _ | ⟨b6, rest⟩⟩⟩⟩⟩⟩⟩ <;>
    cases e <;>
      first
        | rfl
        | (exfalso; simp [requiredLen] at h; try omega)

lemma short_12A (e : Bool) (data : List Nat) (h : data.length < requiredLen 0x12A e) :
    (decode12A 0x12A e data).error.isSome := by
  rcases data with _ | ⟨b0, _ | ⟨b1, _ | ⟨b2, _ | ⟨b3, _ | ⟨b4, _ | ⟨b5, _ | ⟨b6, _ |
      ⟨b7, rest⟩⟩⟩⟩⟩⟩⟩⟩ <;>
    cases e <;>
      first
        | rfl
        | (exfalso; simp [requiredLen] at h; try omega)

lemma short_12B (e : Bool) (data : List Nat) (h : data.length < requiredLen 0x12B e) :
    (decode12B 0x12B e data).error.isSome := by
  rcases data with _ | ⟨b0, _ | ⟨b1, _ | ⟨b2, _ | ⟨b3, _ | ⟨b4, _ | ⟨b5, _ | ⟨b6, _ |
      ⟨b7, rest⟩⟩⟩⟩⟩⟩⟩⟩ <;>
    cases e <;>
      first
        | rfl
        | (exfalso; simp [requiredLen] at h; try omega)

lemma short_540 (e : Bool) (data : List Nat) (h : data.length < requiredLen 0x540 e) :
    (decode540 0x540 e data).error.isSome := by
  rcases data with _ | ⟨b0, _ | ⟨b1, _ | ⟨b2, _ | ⟨b3, _ | ⟨b4, _ | ⟨b5, _ | ⟨b6, _ |
      ⟨b7, rest⟩⟩⟩⟩⟩⟩⟩⟩ <;>
    cases e <;>
      simp_all [requiredLen, decode540, tryByte, tryUnpackBE16, tryAssert, yieldSig,
        done] <;>
      (try split) <;>
      (try simp [yieldSig, done]) <;>
      (try split) <;>
      (try simp [yieldSig, done]) <;>
      (try omega)

/-- C2 is refuted: a truncated payload makes the decoder die with the generic
index error, and two frames with different identifiers produce the very same
error value, so the error cannot identify the identifier (nor name the
insufficient-payload condition). -/
theorem C2_insufficient_counterexample :
    (decode false ⟨0x120, [0, 0, 0]⟩).error = some Err.indexError
    ∧ (decode false ⟨0x12B, [0, 0, 0]⟩).error = some Err.indexError
    ∧ (0x120 : Nat) ≠ 0x12B := by
  decide

/-- C2 (amended): a frame with a known identifier whose payload is shorter
than the bytes its branch accesses always makes `decode` raise some
exception — never silently tolerated — though the exception is one of
Python's generic errors rather than one naming the identifier. -/
theorem C2_insufficient (id : Nat) (e : Bool) (data : List Nat) (hid : id ∈ knownIds)
    (hlen : data.length < requiredLen id e) :
    (decode e ⟨id, data⟩).error.isSome := by
  simp [knownIds] at hid
  rcases hid with rfl | rfl | rfl | rfl | rfl
  · simpa [decode, Decoder.decode] using short_120 e data hlen
  · simpa [decode, Decoder.decode] using short_129 e data hlen
  · simpa [decode, Decoder.decode] using short_12A e data hlen
  · simpa [decode, Decoder.decode] using short_12B e data hlen
  · simpa [decode, Decoder.decode] using short_540 e data hlen

/-- Witness for C2: a three-byte payload on 0x120. -/
theorem C2_insufficient_witness :
    (0x120 : Nat) ∈ knownIds
    ∧ ([0, 0, 0] : List Nat).length < requiredLen 0x120 false
    ∧ (decode false ⟨0x120, [0, 0, 0]⟩).error.isSome :=
  ⟨by decide, by decide, C2_insufficient 0x120 false [0, 0, 0] (by decide) (by decide)⟩

lemma mnb16 : maskNotByte 16 = 0xEF := by decide

lemma mnb1 : maskNotByte 1 = 0xFE := by decide

lemma mnb64 : maskNotByte 64 = 0xBF := by decide

/-- C3 is refuted at two concrete frames: on 0x120 the final byte is
rendered as the placeholder even though no named field consumes byte 7
(the layout comments call it a counter); and on 0x129 byte 0 is rendered
as the placeholder even though its named fields consume only bits 3-7,
where the claim's partially-consumed rule demands the masked hex "07".
In both cases the code's string differs from the claim-mandated
rendering. -/
theorem C3_unmapped_counterexample :
    (0x120, "unmapped", Value.str "__ __ __ EF FE FF FF __") ∈
      (decode true ⟨0x120, [0xFF, 0xFF, 0xFF, 0xFF, 0xFF, 0xFF, 0xFF, 0xFF]⟩).signals
    ∧ renderUnmapped specUses120 [0xFF, 0xFF, 0xFF, 0xFF, 0xFF, 0xFF, 0xFF, 0xFF]
        = "__ __ __ EF FE FF FF FF"
    ∧ ("__ __ __ EF FE FF FF __" : String) ≠ "__ __ __ EF FE FF FF FF"
    ∧ (0x129, "unmapped", Value.str "__ FF FF FF FF FF FF __") ∈
      (decode true ⟨0x129, [0xFF, 0xFF, 0xFF, 0xFF, 0xFF, 0xFF, 0xFF, 0xFF]⟩).signals
    ∧ renderUnmapped specUses129 [0xFF, 0xFF, 0xFF, 0xFF, 0xFF, 0xFF, 0xFF, 0xFF]
        = "07 FF FF FF FF FF FF FF"
    ∧ ("__ FF FF FF FF FF FF __" : String) ≠ "07 FF FF FF FF FF FF FF" := by
  decide

/-- C3 (amended): for each known identifier the unmapped string follows the
fixed per-identifier masking table `useTable`: the placeholder for bytes
fully consumed by named fields, for bytes documented as counter, constant,
or always zero, and for 0x129 byte 0 although its named fields consume only
bits 3-7 of it; hex with only the consumed bits masked to zero for the
partially consumed bytes 3 and 4 of 0x120, byte 1 of 0x12A and byte 4 of
0x540; plain hex otherwise. -/
theorem C3_unmapped (b0 b1 b2 b3 b4 b5 b6 b7 : Nat) :
    ((0x120, "unmapped",
        Value.str (renderUnmapped (useTable 0x120) [b0, b1, b2, b3, b4, b5, b6, b7])) ∈
      (decode true ⟨0x120, [b0, b1, b2, b3, b4, b5, b6, b7]⟩).signals)
    ∧ ((0x129, "unmapped",
        Value.str (renderUnmapped (useTable 0x129) [b0, b1, b2, b3, b4, b5, b6, b7])) ∈
      (decode true ⟨0x129, [b0, b1, b2, b3, b4, b5, b6, b7]⟩).signals)
    ∧ ((0x12A, "unmapped",
        Value.str (renderUnmapped (useTable 0x12A) [b0, b1, b2, b3, b4, b5, b6, b7])) ∈
      (decode true ⟨0x12A, [b0, b1, b2, b3, b4, b5, b6, b7]⟩).signals)
    ∧ ((0x12B, "unmapped",
        Value.str (renderUnmapped (useTable 0x12B) [b0, b1, b2, b3, b4, b5, b6, b7])) ∈
      (decode true ⟨0x12B, [b0, b1, b2, b3, b4, b5, b6, b7]⟩).signals)
    ∧ (b0 = 2 → b5 = 0 →
      (0x540, "unmapped",
        Value.str (renderUnmapped (useTable 0x540) [b0, b1, b2, b3, b4, b5, b6, b7])) ∈
      (decode true ⟨0x540, [b0, b1, b2, b3, b4, b5, b6, b7]⟩).signals) := by
  refine ⟨?_, ?_, ?_, ?_, ?_⟩
  · exact List.Mem.tail _ (List.Mem.tail _ (List.Mem.tail _ (List.Mem.tail _ (List.Mem.head _))))
  · exact List.Mem.tail _ (List.Mem.tail _ (List.Mem.head _))
  · exact List.Mem.tail _ (List.Mem.head _)
  · exact List.Mem.tail _ (List.Mem.tail _ (List.Mem.head _))
  · intro h0 h5
    subst h0
    subst h5
    exact List.Mem.tail _ (List.Mem.tail _ (List.Mem.tail _ (List.Mem.tail _ (List.Mem.head _))))

/-- Witness for C3: a concrete valid 0x540 frame. -/
theorem C3_unmapped_witness :
    (0x540, "unmapped",
      Value.str (renderUnmapped (useTable 0x540) [2, 0, 0, 7, 0x81, 0, 1, 0x2C])) ∈
      (decode true ⟨0x540, [2, 0, 0, 7, 0x81, 0, 1, 0x2C]⟩).signals :=
  (C3_unmapped 2 0 0 7 0x81 0 1 0x2C).2.2.2.2 rfl rfl

end KtmCan
